import Mathlib

/-!
Verification development for the `ufabc_nuclear_reactions` repository
(`src/decay.py`): a shallow embedding of its decay-chain model over ℝ.

A numpy array aligned with the time grid is embedded as a series `ℕ → ℝ`
(value at each time index); numpy's elementwise broadcasting of scalars is
embedded by passing a constant series.  Python floats are idealised as real
numbers, and `np.exp` / `np.log` as `Real.exp` / `Real.log`.
-/

namespace Decay

/-- Half-life of U-234 in years (src/decay.py line 11). -/
noncomputable def T_half_U234 : ℝ := 245500

/-- Half-life of Th-230 in years (src/decay.py line 12). -/
noncomputable def T_half_Th230 : ℝ := 75380

/-- Half-life of Ra-226 in years (src/decay.py line 13). -/
noncomputable def T_half_Ra226 : ℝ := 1600

/-- Half-life of Rn-222 in years (src/decay.py line 14). -/
noncomputable def T_half_Rn222 : ℝ := 3.82 / 365

/-- Decay constant of U-234 (src/decay.py line 17). -/
noncomputable def lambda_U234 : ℝ := Real.log 2 / T_half_U234

/-- Decay constant of Th-230 (src/decay.py line 18). -/
noncomputable def lambda_Th230 : ℝ := Real.log 2 / T_half_Th230

/-- Decay constant of Ra-226 (src/decay.py line 19). -/
noncomputable def lambda_Ra226 : ℝ := Real.log 2 / T_half_Ra226

/-- Decay constant of Rn-222 (src/decay.py line 20). -/
noncomputable def lambda_Rn222 : ℝ := Real.log 2 / T_half_Rn222

/-- Initial U-234 nucleus count (src/decay.py line 23). -/
noncomputable def N0_U234 : ℝ := 100000

/-- Initial Th-230 nucleus count (src/decay.py line 24). -/
noncomputable def N0_Th230 : ℝ := 0

/-- Initial Ra-226 nucleus count (src/decay.py line 25). -/
noncomputable def N0_Ra226 : ℝ := 0

/-- Initial Rn-222 nucleus count (src/decay.py line 26). -/
noncomputable def N0_Rn222 : ℝ := 0

/-- The time grid `np.linspace(0, 500000, 10000)` (src/decay.py line 29):
entry `i` is `500000 * i / 9999` for `i < 10000`; embedded as a total series. -/
noncomputable def t (i : ℕ) : ℝ := 500000 * i / 9999

/-- `calculate_nuclei_population` (src/decay.py lines 31-58).  The time grid,
the parent population and the initial daughter count are series; the Python
call sites pass either a scalar (a constant series here) or an array.  All
arithmetic is numpy-elementwise, and the branch on
`lambda_parent != lambda_daughter` compares the two scalar decay constants. -/
noncomputable def calculate_nuclei_population (ts : ℕ → ℝ)
    (lambda_parent lambda_daughter : ℝ) (N0_parent N0_daughter : ℕ → ℝ) :
    (ℕ → ℝ) × (ℕ → ℝ) :=
  (fun i => N0_parent i * Real.exp (-lambda_parent * ts i),
   if lambda_parent ≠ lambda_daughter then
     fun i =>
       lambda_parent * N0_parent i / (lambda_daughter - lambda_parent) *
           (Real.exp (-lambda_parent * ts i) - Real.exp (-lambda_daughter * ts i)) +
         N0_daughter i * Real.exp (-lambda_daughter * ts i)
   else
     fun i =>
       lambda_parent * N0_parent i * ts i * Real.exp (-lambda_parent * ts i) +
         N0_daughter i * Real.exp (-lambda_parent * ts i))

/-- `calculate_activity` (src/decay.py lines 60-71): `A = lambda * N`. -/
noncomputable def calculate_activity (N : ℕ → ℝ) (lambda_decay : ℝ) : ℕ → ℝ :=
  fun i => lambda_decay * N i

/-- First chain link, parent output (src/decay.py line 74). -/
noncomputable def N_U234 : ℕ → ℝ :=
  (calculate_nuclei_population t lambda_U234 lambda_Th230
    (fun _ => N0_U234) (fun _ => N0_Th230)).1

/-- First chain link, daughter output (src/decay.py line 74). -/
noncomputable def N_Th230 : ℕ → ℝ :=
  (calculate_nuclei_population t lambda_U234 lambda_Th230
    (fun _ => N0_U234) (fun _ => N0_Th230)).2

/-- Second chain link, parent output (src/decay.py line 75): the array
`N_Th230` is passed as the `N0_parent` argument. -/
noncomputable def N_Th230_from_U : ℕ → ℝ :=
  (calculate_nuclei_population t lambda_Th230 lambda_Ra226
    N_Th230 (fun _ => N0_Ra226)).1

/-- Second chain link, daughter output (src/decay.py line 75). -/
noncomputable def N_Ra226 : ℕ → ℝ :=
  (calculate_nuclei_population t lambda_Th230 lambda_Ra226
    N_Th230 (fun _ => N0_Ra226)).2

/-- Third chain link, parent output (src/decay.py line 76): the array
`N_Ra226` is passed as the `N0_parent` argument. -/
noncomputable def N_Ra226_from_Th : ℕ → ℝ :=
  (calculate_nuclei_population t lambda_Ra226 lambda_Rn222
    N_Ra226 (fun _ => N0_Rn222)).1

/-- Third chain link, daughter output (src/decay.py line 76). -/
noncomputable def N_Rn222 : ℕ → ℝ :=
  (calculate_nuclei_population t lambda_Ra226 lambda_Rn222
    N_Ra226 (fun _ => N0_Rn222)).2

/-- Activity of U-234 (src/decay.py line 79). -/
noncomputable def A_U234 : ℕ → ℝ := calculate_activity N_U234 lambda_U234

/-- Activity of Th-230 (src/decay.py line 80). -/
noncomputable def A_Th230 : ℕ → ℝ := calculate_activity N_Th230 lambda_Th230

/-- Activity of Ra-226 (src/decay.py line 81). -/
noncomputable def A_Ra226 : ℕ → ℝ := calculate_activity N_Ra226_from_Th lambda_Ra226

/-- Activity of Rn-222 (src/decay.py line 82). -/
noncomputable def A_Rn222 : ℕ → ℝ := calculate_activity N_Rn222 lambda_Rn222

/-- The secular-equilibrium activity-ratio computation (src/decay.py lines
149-151): each printed ratio is `lambda_daughter / lambda_parent`; this is the
operation the spec names `equilibriumRatio`. -/
noncomputable def equilibriumRatio (lambda_parent lambda_daughter : ℝ) : ℝ :=
  lambda_daughter / lambda_parent

/-- The time-to-99%-equilibrium computation (src/decay.py lines 154-156):
each value is `-np.log(0.01) / lambda_parent`; this is the operation the spec
names `timeTo99PercentEquilibrium`. -/
noncomputable def timeTo99PercentEquilibrium (lambda_parent : ℝ) : ℝ :=
  -Real.log 0.01 / lambda_parent

/-- Time to 99% equilibrium for Th-230 (src/decay.py line 154). -/
noncomputable def t_equilibrium_Th : ℝ := -Real.log 0.01 / lambda_U234

/-- Time to 99% equilibrium for Ra-226 (src/decay.py line 155). -/
noncomputable def t_equilibrium_Ra : ℝ := -Real.log 0.01 / lambda_Th230

/-- Time to 99% equilibrium for Rn-222 (src/decay.py line 156). -/
noncomputable def t_equilibrium_Rn : ℝ := -Real.log 0.01 / lambda_Ra226

/-! ### Helper lemmas -/

lemma pop_fst (ts : ℕ → ℝ) (lp ld : ℝ) (N0p N0d : ℕ → ℝ) (i : ℕ) :
    (calculate_nuclei_population ts lp ld N0p N0d).1 i =
      N0p i * Real.exp (-lp * ts i) := rfl

lemma pop_snd_of_ne (ts : ℕ → ℝ) (lp ld : ℝ) (N0p N0d : ℕ → ℝ) (i : ℕ)
    (h : lp ≠ ld) :
    (calculate_nuclei_population ts lp ld N0p N0d).2 i =
      lp * N0p i / (ld - lp) *
          (Real.exp (-lp * ts i) - Real.exp (-ld * ts i)) +
        N0d i * Real.exp (-ld * ts i) := by
  simp [calculate_nuclei_population, h]

lemma pop_snd_of_eq (ts : ℕ → ℝ) (lp ld : ℝ) (N0p N0d : ℕ → ℝ) (i : ℕ)
    (h : lp = ld) :
    (calculate_nuclei_population ts lp ld N0p N0d).2 i =
      lp * N0p i * ts i * Real.exp (-lp * ts i) +
        N0d i * Real.exp (-lp * ts i) := by
  subst h
  simp [calculate_nuclei_population]

/-! ### Claim theorems -/

/-- C1: in the general case `lambda_parent ≠ lambda_daughter`, the daughter
series returned by `calculate_nuclei_population` at every grid index equals the
two-member Bateman closed form
`(lp·N0p/(ld − lp))·(exp(−lp·t) − exp(−ld·t)) + N0d·exp(−ld·t)`. -/
theorem bateman_general_daughter (ts : ℕ → ℝ) (lp ld : ℝ) (N0p N0d : ℕ → ℝ)
    (i : ℕ) (h : lp ≠ ld) :
    (calculate_nuclei_population ts lp ld N0p N0d).2 i =
      lp * N0p i / (ld - lp) *
          (Real.exp (-lp * ts i) - Real.exp (-ld * ts i)) +
        N0d i * Real.exp (-ld * ts i) :=
  pop_snd_of_ne ts lp ld N0p N0d i h

/-- Witness for C1: the general-case formula at the concrete input
`ts = 0`, `lp = 1`, `ld = 2`, `N0p = 1`, `N0d = 0`, index `0`. -/
theorem bateman_general_daughter_witness :
    (1:ℝ) ≠ 2 ∧
      (calculate_nuclei_population (fun _ => 0) 1 2 (fun _ => 1) (fun _ => 0)).2 0 =
        1 * 1 / (2 - 1) * (Real.exp (-1 * 0) - Real.exp (-2 * 0)) +
          0 * Real.exp (-2 * 0) :=
  ⟨by norm_num,
   bateman_general_daughter (fun _ => 0) 1 2 (fun _ => 1) (fun _ => 0) 0 (by norm_num)⟩

/-- C2: the parent series returned by `calculate_nuclei_population` at every
grid index equals `N0_parent · exp(−lambda_parent · t)`; in particular the
module's U-234 parent series at grid index 0 (time 0) equals `N0_U234`. -/
theorem parent_series_exponential :
    (∀ (ts : ℕ → ℝ) (lp ld : ℝ) (N0p N0d : ℕ → ℝ) (i : ℕ),
        (calculate_nuclei_population ts lp ld N0p N0d).1 i =
          N0p i * Real.exp (-lp * ts i)) ∧
      N_U234 0 = N0_U234 := by
  refine ⟨fun ts lp ld N0p N0d i => rfl, ?_⟩
  have h0 : t 0 = 0 := by norm_num [t]
  show N0_U234 * Real.exp (-lambda_U234 * t 0) = N0_U234
  rw [h0]
  norm_num

/-- C3: when `lambda_parent = lambda_daughter` exactly, the daughter series
returned by `calculate_nuclei_population` at every grid index equals the
division-free limiting form
`lp·N0p·t·exp(−lp·t) + N0d·exp(−lp·t)`, so the division by
`lambda_daughter − lambda_parent` is never evaluated. -/
theorem bateman_degenerate_daughter (ts : ℕ → ℝ) (lp ld : ℝ) (N0p N0d : ℕ → ℝ)
    (i : ℕ) (h : lp = ld) :
    (calculate_nuclei_population ts lp ld N0p N0d).2 i =
      lp * N0p i * ts i * Real.exp (-lp * ts i) +
        N0d i * Real.exp (-lp * ts i) :=
  pop_snd_of_eq ts lp ld N0p N0d i h

/-- Witness for C3: the degenerate branch at the concrete input
`ts = 1`, `lp = ld = 1`, `N0p = 1`, `N0d = 1`, index `0`. -/
theorem bateman_degenerate_daughter_witness :
    (1:ℝ) = 1 ∧
      (calculate_nuclei_population (fun _ => 1) 1 1 (fun _ => 1) (fun _ => 1)).2 0 =
        1 * 1 * 1 * Real.exp (-1 * 1) + 1 * Real.exp (-1 * 1) :=
  ⟨rfl,
   bateman_degenerate_daughter (fun _ => 1) 1 1 (fun _ => 1) (fun _ => 1) 0 rfl⟩

/-- C7: `calculate_activity` returns the series whose value at each index is
exactly `lambda_decay · N` at that index, for every series and constant. -/
theorem activity_pointwise :
    ∀ (N : ℕ → ℝ) (lambda_decay : ℝ) (i : ℕ),
      calculate_activity N lambda_decay i = lambda_decay * N i :=
  fun _ _ _ => rfl

/-- C10 (implicit): for a scalar nonnegative initial parent count and a
positive parent decay constant, the parent series returned by
`calculate_nuclei_population` is non-increasing along time: if
`ts i ≤ ts j` then the value at index `j` is at most the value at index `i`. -/
theorem parent_series_antitone (ts : ℕ → ℝ) (lp ld : ℝ) (N0p : ℝ)
    (N0d : ℕ → ℝ) (i j : ℕ) (hN : 0 ≤ N0p) (hl : 0 < lp) (hij : ts i ≤ ts j) :
    (calculate_nuclei_population ts lp ld (fun _ => N0p) N0d).1 j ≤
      (calculate_nuclei_population ts lp ld (fun _ => N0p) N0d).1 i := by
  rw [pop_fst, pop_fst]
  have hexp : -lp * ts j ≤ -lp * ts i := by nlinarith
  exact mul_le_mul_of_nonneg_left (Real.exp_le_exp.2 hexp) hN

/-- Witness for C10: monotone decay at the concrete input `ts = id`,
`lp = 1`, `N0p = 1`, indices `0 ≤ 1`. -/
theorem parent_series_antitone_witness :
    (0:ℝ) ≤ 1 ∧ (0:ℝ) < 1 ∧
      (calculate_nuclei_population (fun n => (n:ℝ)) 1 1 (fun _ => 1) (fun _ => 0)).1 1 ≤
        (calculate_nuclei_population (fun n => (n:ℝ)) 1 1 (fun _ => 1) (fun _ => 0)).1 0 :=
  ⟨by norm_num, by norm_num,
   parent_series_antitone (fun n => (n:ℝ)) 1 1 1 (fun _ => 0) 0 1
     (by norm_num) (by norm_num) (by norm_num)⟩

/-- C6: for physically valid inputs (`N0p ≥ 0`, `N0d ≥ 0`, `lp > 0`, `ld > 0`)
and a nonnegative time value, both series returned by
`calculate_nuclei_population` are nonnegative at that index, and when the time
value is 0 the daughter series equals the declared initial daughter count, in
both the general and the degenerate branch. -/
theorem populations_nonneg (ts : ℕ → ℝ) (lp ld : ℝ) (N0p N0d : ℕ → ℝ) (i : ℕ)
    (hp : 0 ≤ N0p i) (hd : 0 ≤ N0d i) (hlp : 0 < lp) (hld : 0 < ld)
    (ht : 0 ≤ ts i) :
    0 ≤ (calculate_nuclei_population ts lp ld N0p N0d).1 i ∧
      0 ≤ (calculate_nuclei_population ts lp ld N0p N0d).2 i ∧
      (ts i = 0 → (calculate_nuclei_population ts lp ld N0p N0d).2 i = N0d i) := by
  refine ⟨?_, ?_, ?_⟩
  · rw [pop_fst]
    exact mul_nonneg hp (Real.exp_pos _).le
  · by_cases hc : lp = ld
    · rw [pop_snd_of_eq ts lp ld N0p N0d i hc]
      have h1 : 0 ≤ lp * N0p i * ts i * Real.exp (-lp * ts i) :=
        mul_nonneg (mul_nonneg (mul_nonneg hlp.le hp) ht) (Real.exp_pos _).le
      have h2 : 0 ≤ N0d i * Real.exp (-lp * ts i) :=
        mul_nonneg hd (Real.exp_pos _).le
      linarith
    · rw [pop_snd_of_ne ts lp ld N0p N0d i hc]
      have h2 : 0 ≤ N0d i * Real.exp (-ld * ts i) :=
        mul_nonneg hd (Real.exp_pos _).le
      rcases lt_trichotomy lp ld with hlt | heq | hgt
      · have hden : 0 < ld - lp := by linarith
        have hee : Real.exp (-ld * ts i) ≤ Real.exp (-lp * ts i) :=
          Real.exp_le_exp.2 (by nlinarith)
        have h1 : 0 ≤ lp * N0p i / (ld - lp) *
            (Real.exp (-lp * ts i) - Real.exp (-ld * ts i)) :=
          mul_nonneg (div_nonneg (mul_nonneg hlp.le hp) hden.le)
            (sub_nonneg.2 hee)
        linarith
      · exact absurd heq hc
      · have hden : ld - lp ≤ 0 := by linarith
        have hee : Real.exp (-lp * ts i) ≤ Real.exp (-ld * ts i) :=
          Real.exp_le_exp.2 (by nlinarith)
        have h1 : 0 ≤ lp * N0p i / (ld - lp) *
            (Real.exp (-lp * ts i) - Real.exp (-ld * ts i)) :=
          mul_nonneg_of_nonpos_of_nonpos
            (div_nonpos_of_nonneg_of_nonpos (mul_nonneg hlp.le hp) hden)
            (sub_nonpos.2 hee)
        linarith
  · intro h0
    by_cases hc : lp = ld
    · rw [pop_snd_of_eq ts lp ld N0p N0d i hc, h0]
      norm_num
    · rw [pop_snd_of_ne ts lp ld N0p N0d i hc, h0]
      norm_num

/-- Witness for C6: nonnegativity and the `t = 0` daughter value at the
concrete input `ts = 0`, `lp = 1`, `ld = 2`, `N0p = 1`, `N0d = 1`, index `0`. -/
theorem populations_nonneg_witness :
    (0:ℝ) ≤ 1 ∧ (0:ℝ) < 2 ∧
      (0 ≤ (calculate_nuclei_population (fun _ => 0) 1 2 (fun _ => 1) (fun _ => 1)).1 0 ∧
        0 ≤ (calculate_nuclei_population (fun _ => 0) 1 2 (fun _ => 1) (fun _ => 1)).2 0 ∧
        ((0:ℝ) = 0 →
          (calculate_nuclei_population (fun _ => 0) 1 2 (fun _ => 1) (fun _ => 1)).2 0 = 1)) :=
  ⟨by norm_num, by norm_num,
   populations_nonneg (fun _ => 0) 1 2 (fun _ => 1) (fun _ => 1) 0
     (by norm_num) (by norm_num) (by norm_num) (by norm_num) le_rfl⟩

lemma log_two_pos : 0 < Real.log 2 := Real.log_pos (by norm_num)

lemma lambda_U234_pos : 0 < lambda_U234 := by
  rw [lambda_U234, T_half_U234]
  exact div_pos log_two_pos (by norm_num)

lemma lambda_Th230_pos : 0 < lambda_Th230 := by
  rw [lambda_Th230, T_half_Th230]
  exact div_pos log_two_pos (by norm_num)

lemma lambda_U234_lt_lambda_Th230 : lambda_U234 < lambda_Th230 := by
  rw [lambda_U234, lambda_Th230, T_half_U234, T_half_Th230]
  exact div_lt_div_of_pos_left log_two_pos (by norm_num) (by norm_num)

lemma t_9999_eq : t 9999 = 500000 := by
  rw [t]
  norm_num

lemma N_Th230_9999_pos : 0 < N_Th230 9999 := by
  rw [N_Th230,
    pop_snd_of_ne t lambda_U234 lambda_Th230 (fun _ => N0_U234)
      (fun _ => N0_Th230) 9999 (ne_of_lt lambda_U234_lt_lambda_Th230)]
  have hU := lambda_U234_pos
  have hUT := lambda_U234_lt_lambda_Th230
  have ht9 := t_9999_eq
  have hee : Real.exp (-lambda_Th230 * t 9999) < Real.exp (-lambda_U234 * t 9999) := by
    apply Real.exp_lt_exp.2
    rw [ht9]
    nlinarith
  have h1 : 0 < lambda_U234 * N0_U234 / (lambda_Th230 - lambda_U234) *
      (Real.exp (-lambda_U234 * t 9999) - Real.exp (-lambda_Th230 * t 9999)) := by
    apply mul_pos
    · apply div_pos
      · exact mul_pos hU (by rw [N0_U234]; norm_num)
      · linarith
    · linarith
  have h2 : (0:ℝ) = N0_Th230 * Real.exp (-lambda_Th230 * t 9999) := by
    rw [N0_Th230]
    ring
  show 0 < lambda_U234 * N0_U234 / (lambda_Th230 - lambda_U234) *
      (Real.exp (-lambda_U234 * t 9999) - Real.exp (-lambda_Th230 * t 9999)) +
    N0_Th230 * Real.exp (-lambda_Th230 * t 9999)
  linarith

/-- Counterexample for C4: in the module's chain, the parent series that the
second link's computation operates on is NOT link 1's daughter array: at grid
index 9999 the two differ, because `calculate_nuclei_population` multiplies
the array it received by a further exponential decay factor. -/
theorem chain_feed_counterexample : N_Th230_from_U 9999 ≠ N_Th230 9999 := by
  apply ne_of_lt
  have hN := N_Th230_9999_pos
  have hexp : Real.exp (-lambda_Th230 * t 9999) < 1 := by
    rw [← Real.exp_zero]
    apply Real.exp_lt_exp.2
    rw [t_9999_eq]
    nlinarith [lambda_Th230_pos]
  calc N_Th230_from_U 9999
      = N_Th230 9999 * Real.exp (-lambda_Th230 * t 9999) := rfl
    _ < N_Th230 9999 * 1 := by exact mul_lt_mul_of_pos_left hexp hN
    _ = N_Th230 9999 := mul_one _

/-- C4 (amended): the daughter array output by link k is passed as the
`N0_parent` argument of link k+1, but `calculate_nuclei_population` treats it
as an initial count and multiplies it elementwise by `exp(−lambda_parent·t)`:
at every grid index, the parent series produced inside link k+1 equals link
k's daughter series at that index times `exp(−lambda_parent·t)` — not the
daughter series itself. -/
theorem chain_feed_amended :
    ∀ i : ℕ,
      N_Th230_from_U i = N_Th230 i * Real.exp (-lambda_Th230 * t i) ∧
        N_Ra226_from_Th i = N_Ra226 i * Real.exp (-lambda_Ra226 * t i) :=
  fun _ => ⟨rfl, rfl⟩

/-- Counterexample for C5: with the invalid input `N0_parent = −1` (a negative
initial population) the code performs no detection and no failure: it returns
an ordinary — here negative — numeric result. -/
theorem no_validation_counterexample :
    (calculate_nuclei_population (fun _ => 1) 1 1 (fun _ => -1) (fun _ => 0)).1 0 < 0 := by
  show (-1 : ℝ) * Real.exp (-1 * 1) < 0
  nlinarith [Real.exp_pos (-1 * (1:ℝ))]

/-- C5 (amended): the core functions perform no input validation at their
boundary; `calculate_nuclei_population` is a total function that returns the
closed-form value for every real input, and in particular a negative initial
parent population propagates to a negative parent series instead of an
invalid-argument failure. -/
theorem no_validation_amended (ts : ℕ → ℝ) (lp ld : ℝ) (N0p N0d : ℕ → ℝ)
    (i : ℕ) (h : N0p i < 0) :
    (calculate_nuclei_population ts lp ld N0p N0d).1 i < 0 := by
  rw [pop_fst]
  exact mul_neg_of_neg_of_pos h (Real.exp_pos _)

/-- Witness for the amended C5: the negative result at the concrete input
`ts = 0`, `lp = 2`, `ld = 3`, `N0p = −5`, `N0d = 0`, index `0`. -/
theorem no_validation_amended_witness :
    (-5:ℝ) < 0 ∧
      (calculate_nuclei_population (fun _ => 0) 2 3 (fun _ => -5) (fun _ => 0)).1 0 < 0 :=
  ⟨by norm_num,
   no_validation_amended (fun _ => 0) 2 3 (fun _ => -5) (fun _ => 0) 0 (by norm_num)⟩

/-- C8: `equilibriumRatio` returns exactly `lambda_daughter / lambda_parent`
for every positive parent decay constant, and at the sample pair
(U-234 → Th-230) the returned ratio equals `245500 / 75380` (≈ 3.2562). -/
theorem equilibrium_ratio_correct (lp ld : ℝ) (h : 0 < lp) :
    equilibriumRatio lp ld = ld / lp ∧
      equilibriumRatio lambda_U234 lambda_Th230 = 245500 / 75380 := by
  refine ⟨rfl, ?_⟩
  have hl2 : Real.log 2 ≠ 0 := log_two_pos.ne'
  rw [equilibriumRatio, lambda_U234, lambda_Th230, T_half_U234, T_half_Th230]
  rw [div_div_div_comm, div_self hl2, one_div_div]

/-- Witness for C8: the ratio at the concrete pair `lp = 1`, `ld = 2`. -/
theorem equilibrium_ratio_correct_witness :
    (0:ℝ) < 1 ∧
      (equilibriumRatio 1 2 = 2 / 1 ∧
        equilibriumRatio lambda_U234 lambda_Th230 = 245500 / 75380) :=
  ⟨by norm_num, equilibrium_ratio_correct 1 2 (by norm_num)⟩

lemma log_hundred_lower : 93 * Real.log 2 < 14 * Real.log 100 := by
  have h : ((2:ℝ)) ^ (93:ℕ) < ((100:ℝ)) ^ (14:ℕ) := by norm_num
  have hl := Real.log_lt_log (by positivity) h
  rw [Real.log_pow, Real.log_pow] at hl
  push_cast at hl
  linarith

lemma log_hundred_upper : 17 * Real.log 100 < 113 * Real.log 2 := by
  have h : ((100:ℝ)) ^ (17:ℕ) < ((2:ℝ)) ^ (113:ℕ) := by norm_num
  have hl := Real.log_lt_log (by positivity) h
  rw [Real.log_pow, Real.log_pow] at hl
  push_cast at hl
  linarith

lemma t_equilibrium_Th_closed :
    t_equilibrium_Th = Real.log 100 * 245500 / Real.log 2 := by
  have h001 : Real.log (0.01:ℝ) = -Real.log 100 := by
    rw [show (0.01:ℝ) = 100⁻¹ by norm_num, Real.log_inv]
  rw [t_equilibrium_Th, lambda_U234, T_half_U234, h001, neg_neg,
    div_div_eq_mul_div]

/-- C9: `timeTo99PercentEquilibrium` returns exactly `−ln(0.01)/lambda_parent`
for every decay constant; the module's `t_equilibrium_Th` is that value at
`lambda_U234 = ln(2)/245500` and lies between 1,630,000 and 1,632,000 years,
i.e. it is approximately 1.63 million years. -/
theorem time_to_equilibrium_correct :
    (∀ lp : ℝ, timeTo99PercentEquilibrium lp = -Real.log 0.01 / lp) ∧
      t_equilibrium_Th = timeTo99PercentEquilibrium lambda_U234 ∧
      1630000 < t_equilibrium_Th ∧ t_equilibrium_Th < 1632000 := by
  have hlog2 := log_two_pos
  have k1 := log_hundred_lower
  have k2 := log_hundred_upper
  refine ⟨fun lp => rfl, rfl, ?_, ?_⟩
  · rw [t_equilibrium_Th_closed, lt_div_iff₀ hlog2]
    linarith
  · rw [t_equilibrium_Th_closed, div_lt_iff₀ hlog2]
    linarith

end Decay
